import Mathlib

/-!
# Verification of the image-hooks update orchestrator

A shallow embedding of the `image-hooks` update orchestrator: the component
that receives a normalized container-registry push event, matches it against
configured repositories, patches one scalar value in a YAML manifest, and
drives the branch / commit / pull-request sequence against an SCM gateway.

The orchestrator implementation (`pkg/updater`), the mock SCM client
(`pkg/client/mock`), the configuration types (`pkg/config`) and the document
patcher are not present in the source tree; only their tests
(`pkg/updater/update_test.go`) and one caller (`pkg/cmd/http.go`) are.  Those
parts are modelled from the specification, and every such definition carries a
doc comment saying so.  `parserFor` is embedded directly from
`pkg/cmd/http.go`.

Machine conventions: Go strings are Lean `String`s; Go errors are their
message `String`s; fallible calls return `Except String _` or pair the new
state with `Option String`; the SCM gateway is a record of performed calls
plus injectable failures, mirroring the mock client the tests drive.
-/

set_option autoImplicit false

namespace ImageHooks

/-! ## Data model (modelled from the spec, section 3) -/

/-- Modelled from the spec: the normalized push event produced by a webhook
payload parser (`pkg/hooks`, not in the source tree):
`{ RepositoryName, ImageReference, UpdatedTags }`. -/
structure PushEvent where
  repositoryName : String
  imageReference : String
  updatedTags : List String
deriving DecidableEq

/-- Modelled from the spec: one configured update target (`config.Repository`,
not in the source tree): name, git-hosting repo, source branch, file path,
dotted update key, and the optional branch-generate name. -/
structure Repository where
  name : String
  sourceRepo : String
  sourceBranch : String
  filePath : String
  updateKey : String
  branchGenerateName : String
deriving DecidableEq

/-- Modelled from the spec: the process-wide configuration
(`config.RepoConfiguration`, not in the source tree), a sequence of
repositories. -/
structure RepoConfiguration where
  repositories : List Repository
deriving DecidableEq

/-- Modelled from the spec: the pull-request input tuple
(`scm.PullRequestInput`) with title, body, head and base. -/
structure PullRequestInput where
  title : String
  body : String
  head : String
  base : String
deriving DecidableEq

/-- Modelled from the spec: `SourceBranch` defaults to `"master"` when the
configured value is empty. -/
def branchOf (r : Repository) : String :=
  if r.sourceBranch = "" then "master" else r.sourceBranch

/-- Modelled from the spec: only the first updated tag drives the
replacement. -/
def firstTag (tags : List String) : String := tags.headD ""

/-- Modelled from the spec: the replacement value written at the update key is
`"<ImageReference>:<tag>"` for the first updated tag. -/
def newImageValue (ev : PushEvent) : String :=
  ev.imageReference ++ ":" ++ firstTag ev.updatedTags

/-! ## Document patcher (modelled from the spec, section 4.3)

The patcher rewrites one scalar addressed by a dotted key path inside a
structured text document, byte-preserving everything else.  We model the
document as its list of lines; a mapping key at depth `d` is a line
`2d spaces ++ key ++ ":"`, and the scalar leaf is a line beginning
`2d spaces ++ key ++ ": "` whose remainder is the scalar to replace. -/

/-- If `s` begins with `p`, return the remainder of `s` after `p`. -/
def charsDropLead : List Char → List Char → Option (List Char)
  | [], s => some s
  | _ :: _, [] => none
  | p :: ps, c :: cs => if c = p then charsDropLead ps cs else none

/-- Split a character list on a separator character (like `String.splitOn`
for a single-character separator). -/
def splitOnChar (sep : Char) : List Char → List (List Char)
  | [] => [[]]
  | c :: cs =>
    if c = sep then [] :: splitOnChar sep cs
    else
      match splitOnChar sep cs with
      | [] => [[c]]
      | l :: ls => (c :: l) :: ls

/-- Join character lists with a separator character (left inverse of
`splitOnChar`). -/
def joinWithChar (sep : Char) : List (List Char) → List Char
  | [] => []
  | [l] => l
  | l :: ls => l ++ sep :: joinWithChar sep ls

/-- The lines of a document. -/
def splitLines (doc : List Char) : List (List Char) :=
  splitOnChar '\n' doc

/-- Reassemble a document from its lines. -/
def joinLines (lines : List (List Char)) : List Char :=
  joinWithChar '\n' lines

/-- Two spaces of indentation per nesting depth. -/
def indentChars (d : Nat) : List Char := List.replicate (2 * d) ' '

/-- The prefix of a scalar-leaf line for key `k` at depth `d`:
indentation, the key, a colon and a space. -/
def keyPre (d : Nat) (k : List Char) : List Char :=
  indentChars d ++ k ++ [':', ' ']

/-- A nested-mapping introduction line for key `k` at depth `d`:
indentation, the key and a colon. -/
def mapLine (d : Nat) (k : List Char) : List Char :=
  indentChars d ++ k ++ [':']

/-- Modelled from the spec: the core of the document patcher (the updater's
YAML rewriter, not in the source tree).  Walk the lines; for an intermediate
key segment, find its mapping line and continue below it one level deeper;
for the terminal segment, find the first scalar-leaf line for that key and
replace only the scalar after the key prefix, keeping every other line (and
the matched line's own prefix) byte-identical. -/
def patchLines : List (List Char) → List (List Char) → Nat → List Char →
    Option (List (List Char))
  | _, [], _, _ => none
  | [], _ :: _, _, _ => none
  | line :: rest, [k], d, v =>
    match charsDropLead (keyPre d k) line with
    | some _ => some ((keyPre d k ++ v) :: rest)
    | none => (patchLines rest [k] d v).map (line :: ·)
  | line :: rest, k :: k' :: ks, d, v =>
    if line = mapLine d k then
      (patchLines rest (k' :: ks) (d + 1) v).map (line :: ·)
    else
      (patchLines rest (k :: k' :: ks) d v).map (line :: ·)

/-- Modelled from the spec: `Patch(document, keyPath, newValue)` — split the
key path on dots, patch the addressed scalar leaf, and fail (`none`) when the
path does not resolve. -/
def patchDoc (doc key v : String) : Option String :=
  (patchLines (splitLines doc.data) (splitOnChar '.' key.data) 0 v.data).map
    (fun ls => String.mk (joinLines ls))

/-! ## SCM gateway (modelled from the spec, section 4.5, and the mock client
the tests drive)

The gateway is modelled as a state recording the repository contents it can
serve (`files`, `branchHeads`), the calls performed so far
(`createdBranches`, `updatedFiles`, `pullRequests`), and one injectable
failure per operation, exactly as `pkg/client/mock` (not in the source tree)
exposes `GetFileErr`, `CreateBranchErr`, `UpdateFileErr` and
`CreatePullRequestErr`. -/

/-- Modelled from the spec: the SCM gateway's observable state (the mock
client of `pkg/client/mock`, not in the source tree). -/
structure GatewayState where
  files : List ((String × String × String) × String) := []
  branchHeads : List ((String × String) × String) := []
  createdBranches : List (String × String × String) := []
  updatedFiles : List ((String × String × String) × String) := []
  pullRequests : List (String × PullRequestInput) := []
  getFileErr : Option String := none
  createBranchErr : Option String := none
  updateFileErr : Option String := none
  createPullRequestErr : Option String := none
deriving DecidableEq

/-- Modelled from the spec: `GetFile(repo, path, ref) → (bytes, error)` —
fails with the injected error when one is set, otherwise serves the stored
content. -/
def GatewayState.getFile (s : GatewayState) (repo path ref : String) :
    Except String String :=
  match s.getFileErr with
  | some e => .error e
  | none =>
    match s.files.lookup (repo, path, ref) with
    | some content => .ok content
    | none => .error ("no file found for " ++ path)

/-- Modelled from the spec: `GetBranchHead(repo, branch) → (commitSHA, error)`. -/
def GatewayState.getBranchHead (s : GatewayState) (repo branch : String) :
    Except String String :=
  match s.branchHeads.lookup (repo, branch) with
  | some sha => .ok sha
  | none => .error ("no branch head for " ++ branch)

/-- Modelled from the spec: `CreateBranch(repo, name, fromSHA) → error` —
records the created branch unless the injected failure fires. -/
def GatewayState.createBranch (s : GatewayState) (repo name sha : String) :
    GatewayState × Option String :=
  match s.createBranchErr with
  | some e => (s, some e)
  | none =>
    ({ s with createdBranches := s.createdBranches ++ [(repo, name, sha)] },
     none)

/-- Modelled from the spec: `UpdateFile(repo, path, branch, content, message)
→ error` — records the written content unless the injected failure fires. -/
def GatewayState.updateFile (s : GatewayState)
    (repo path branch content _message : String) : GatewayState × Option String :=
  match s.updateFileErr with
  | some e => (s, some e)
  | none =>
    ({ s with updatedFiles := s.updatedFiles ++ [((repo, path, branch), content)] },
     none)

/-- Modelled from the spec: `CreatePullRequest(repo, input) → error`. -/
def GatewayState.createPullRequest (s : GatewayState) (repo : String)
    (pr : PullRequestInput) : GatewayState × Option String :=
  match s.createPullRequestErr with
  | some e => (s, some e)
  | none => ({ s with pullRequests := s.pullRequests ++ [(repo, pr)] }, none)

/-! ## Update orchestrator (modelled from the spec, sections 4.1, 4.2) -/

/-- Modelled from the spec: the commit message attached to the file update
(its exact content is not specified and no observed behavior depends on it). -/
def commitMessage : String := "Automated image update"

/-- Modelled from the spec: `MatchAll(event)` — every configured repository
whose name equals the event's repository name, in configuration order. -/
def matchAll (cfg : RepoConfiguration) (ev : PushEvent) : List Repository :=
  cfg.repositories.filter (fun r => r.name == ev.repositoryName)

/-- Modelled from the spec: processing of one matched target, steps 1-5 of
section 4.2 in that exact order.  `namer` is the injected branch-name
generator (`PrefixedName`).  Returns the gateway state after the performed
calls, paired with the returned error, if any:

1. `GetFile` — failure returned verbatim, no side effect;
2. the document patch with value `newImageValue ev` — failure returned with
   no side effect;
3. when `BranchGenerateName` is non-empty, `GetBranchHead` (failure verbatim,
   section 7's upstream-fetch rule) then `CreateBranch` on the generated name
   (failure wrapped as "failed to create branch: <cause>");
4. `UpdateFile` on the target branch (failure wrapped as
   "failed to update file: <cause>");
5. iff the target branch differs from the source branch,
   `CreatePullRequest` with title "Image <name> updated", body
   "Automated Image Update", the generated head and the source base
   (failure wrapped as "failed to create a pull request: <cause>"). -/
def updateRepo (namer : String → String) (ev : PushEvent) (r : Repository)
    (s : GatewayState) : GatewayState × Option String :=
  match s.getFile r.sourceRepo r.filePath (branchOf r) with
  | .error e => (s, some e)
  | .ok content =>
    match patchDoc content r.updateKey (newImageValue ev) with
    | none => (s, some ("failed to update " ++ r.filePath))
    | some newContent =>
      if r.branchGenerateName = "" then
        match s.updateFile r.sourceRepo r.filePath (branchOf r) newContent
            commitMessage with
        | (s1, some e) => (s1, some ("failed to update file: " ++ e))
        | (s1, none) => (s1, none)
      else
        match s.getBranchHead r.sourceRepo (branchOf r) with
        | .error e => (s, some e)
        | .ok sha =>
          match s.createBranch r.sourceRepo (namer r.branchGenerateName) sha with
          | (s1, some e) => (s1, some ("failed to create branch: " ++ e))
          | (s1, none) =>
            match s1.updateFile r.sourceRepo r.filePath
                (namer r.branchGenerateName) newContent commitMessage with
            | (s2, some e) => (s2, some ("failed to update file: " ++ e))
            | (s2, none) =>
              if namer r.branchGenerateName = branchOf r then (s2, none)
              else
                match s2.createPullRequest r.sourceRepo
                    ⟨"Image " ++ r.name ++ " updated", "Automated Image Update",
                     namer r.branchGenerateName, branchOf r⟩ with
                | (s3, some e) =>
                  (s3, some ("failed to create a pull request: " ++ e))
                | (s3, none) => (s3, none)

/-- Modelled from the spec: sequential processing of the matched targets.
The spec leaves the multi-match error policy open; fail-fast is chosen here
(no observed behavior involves more than one match). -/
def processAll (namer : String → String) (ev : PushEvent) :
    List Repository → GatewayState → GatewayState × Option String
  | [], s => (s, none)
  | r :: rs, s =>
    match updateRepo namer ev r s with
    | (s', none) => processAll namer ev rs s'
    | (s', some e) => (s', some e)

/-- Modelled from the spec: `UpdateFromHook(event) → error`, the sole entry
point — match the event, then process each matched target in order. -/
def updateFromHook (namer : String → String) (cfg : RepoConfiguration)
    (ev : PushEvent) (s : GatewayState) : GatewayState × Option String :=
  processAll namer ev (matchAll cfg ev) s

/-! ## Parser selection (embedded from `src/pkg/cmd/http.go`) -/

/-- The two webhook payload parsers selectable in `pkg/cmd/http.go`:
`quay.Parse` and `docker.Parse`. -/
inductive HookParserKind where
  | quayParse
  | dockerParse
deriving DecidableEq

/-- The default of the `parser` flag registered in `makeHTTPCmd`
(`src/pkg/cmd/http.go`): `"quay"`; `viper.GetString("parser")` returns it
when the flag is not set. -/
def defaultParserName : String := "quay"

/-- The effective parser name: the configured value, or the flag default
`"quay"` when none is set. -/
def effectiveParserName (setting : Option String) : String :=
  setting.getD defaultParserName

/-- The `parser` function of `src/pkg/cmd/http.go`: `"quay"` selects
`quay.Parse`, `"docker"` selects `docker.Parse`, anything else is
`unknown parser: <name>`. -/
def parserFor (name : String) : Except String HookParserKind :=
  if name = "quay" then .ok .quayParse
  else if name = "docker" then .ok .dockerParse
  else .error ("unknown parser: " ++ name)

/-! ## Test fixtures (from `pkg/updater/update_test.go`) -/

/-- The constant `testQuayRepo` of the test file. -/
def testQuayRepo : String := "mynamespace/repository"

/-- The constant `testGitHubRepo` of the test file. -/
def testGitHubRepo : String := "testorg/testrepo"

/-- The constant `testFilePath` of the test file. -/
def testFilePath : String := "environments/test/services/service-a/test.yaml"

/-- The constant `testSHA` of the test file. -/
def testSHA : String := "980a0d5f19a64b4b30a87d4206aade58726b60e3"

/-- The hook built by `createHook` of the test file: the quay push hook normalized to a
`PushEvent`. -/
def testHook : PushEvent :=
  { repositoryName := testQuayRepo
    imageReference := "quay.io/testorg/repo"
    updatedTags := ["production"] }

/-- The repository built by `createConfigs` of the test file: one target, branch-generation
mode. -/
def testRepository : Repository :=
  { name := testQuayRepo
    sourceRepo := testGitHubRepo
    sourceBranch := "master"
    filePath := testFilePath
    updateKey := "test.image"
    branchGenerateName := "test-branch-" }

/-- The configuration built by `createConfigs` of the test file. -/
def testConfigs : RepoConfiguration := ⟨[testRepository]⟩

/-- The stub `stubNameGenerator` of the test file: appends a fixed suffix to the
given name stem. -/
def stubNamer (suffix : String) : String → String := fun p => p ++ suffix

/-- The gateway state the tests prepare: the original manifest on the given
branch and that branch's head commit. -/
def initialState (branch : String) : GatewayState :=
  { files := [((testGitHubRepo, testFilePath, branch),
               "test:\n  image: old-image\n")]
    branchHeads := [((testGitHubRepo, branch), testSHA)] }

/-- The configuration of `TestUpdaterWithNonMasterSourceBranch`: the test
repository with `SourceBranch = "staging"`. -/
def stagingRepository : Repository :=
  { testRepository with sourceBranch := "staging" }

/-- The repository `stagingRepository` as a configuration. -/
def stagingConfigs : RepoConfiguration := ⟨[stagingRepository]⟩

/-- The patched manifest every successful scenario expects. -/
def wantContent : String := "test:\n  image: quay.io/testorg/repo:production\n"

/-- The configuration of `TestUpdaterWithNoNameGenerator`: the test
repository in direct-commit mode (`BranchGenerateName = ""`), with source
branch `"production"`. -/
def directRepository : Repository :=
  { testRepository with branchGenerateName := "", sourceBranch := "production" }

/-- The repository `directRepository` as a configuration. -/
def directConfigs : RepoConfiguration := ⟨[directRepository]⟩

/-! ## General lemmas about the orchestrator -/

/-- When exactly one repository matches, `updateFromHook` behaves as the
processing of that single target. -/
theorem updateFromHook_single (namer : String → String)
    (cfg : RepoConfiguration) (ev : PushEvent) (s : GatewayState)
    (r : Repository) (hm : matchAll cfg ev = [r]) :
    updateFromHook namer cfg ev s = updateRepo namer ev r s := by
  rw [updateFromHook, hm]
  cases h : updateRepo namer ev r s with
  | mk s' err => cases err <;> simp [processAll, h]

/-- When at least one repository matches and the first matched target fails,
`updateFromHook` returns that failure (fail-fast). -/
theorem updateFromHook_head_fails (namer : String → String)
    (cfg : RepoConfiguration) (ev : PushEvent) (s s' : GatewayState)
    (r : Repository) (rs : List Repository) (e : String)
    (hm : matchAll cfg ev = r :: rs)
    (hr : updateRepo namer ev r s = (s', some e)) :
    updateFromHook namer cfg ev s = (s', some e) := by
  rw [updateFromHook, hm]
  simp [processAll, hr]

/-- A success of `charsDropLead` splits the given lead off. -/
theorem charsDropLead_eq :
    ∀ (p s r : List Char), charsDropLead p s = some r → s = p ++ r := by
  intro p
  induction p with
  | nil =>
    intro s r h
    simp only [charsDropLead, Option.some.injEq] at h
    simp [h]
  | cons a ps ih =>
    intro s r h
    cases s with
    | nil => simp [charsDropLead] at h
    | cons c cs =>
      simp only [charsDropLead] at h
      by_cases hc : c = a
      · rw [if_pos hc] at h
        subst hc
        simpa using ih cs r h
      · rw [if_neg hc] at h
        cases h

/-- Frame property of the patcher: a successful patch changes exactly one
line, keeping that line's indent-and-key lead and every other line
byte-identical. -/
theorem patchLines_frame :
    ∀ (lines segs : List (List Char)) (d : Nat) (v : List Char)
      (out : List (List Char)),
      patchLines lines segs d v = some out →
      ∃ l1 d' k old l2,
        lines = l1 ++ (keyPre d' k ++ old) :: l2 ∧
        out = l1 ++ (keyPre d' k ++ v) :: l2 := by
  intro lines
  induction lines with
  | nil =>
    intro segs d v out h
    cases segs <;> simp [patchLines] at h
  | cons line rest ih =>
    intro segs d v out h
    match segs with
    | [] => simp [patchLines] at h
    | [k] =>
      simp only [patchLines] at h
      cases hcd : charsDropLead (keyPre d k) line with
      | some tail =>
        rw [hcd] at h
        simp only [Option.some.injEq] at h
        refine ⟨[], d, k, tail, rest, ?_, ?_⟩
        · simp [charsDropLead_eq _ _ _ hcd]
        · simp [← h]
      | none =>
        rw [hcd] at h
        cases hrec : patchLines rest [k] d v with
        | none => rw [hrec] at h; simp at h
        | some outRec =>
          rw [hrec] at h
          simp only [Option.map_some', Option.some.injEq] at h
          obtain ⟨l1, d', k', old, l2, h1, h2⟩ := ih [k] d v outRec hrec
          exact ⟨line :: l1, d', k', old, l2, by simp [h1], by simp [← h, h2]⟩
    | k :: k' :: ks =>
      simp only [patchLines] at h
      by_cases hml : line = mapLine d k
      · rw [if_pos hml] at h
        cases hrec : patchLines rest (k' :: ks) (d + 1) v with
        | none => rw [hrec] at h; simp at h
        | some outRec =>
          rw [hrec] at h
          simp only [Option.map_some', Option.some.injEq] at h
          obtain ⟨l1, d', k'', old, l2, h1, h2⟩ := ih (k' :: ks) (d + 1) v outRec hrec
          exact ⟨line :: l1, d', k'', old, l2, by simp [h1], by simp [← h, h2]⟩
      · rw [if_neg hml] at h
        cases hrec : patchLines rest (k :: k' :: ks) d v with
        | none => rw [hrec] at h; simp at h
        | some outRec =>
          rw [hrec] at h
          simp only [Option.map_some', Option.some.injEq] at h
          obtain ⟨l1, d', k'', old, l2, h1, h2⟩ := ih (k :: k' :: ks) d v outRec hrec
          exact ⟨line :: l1, d', k'', old, l2, by simp [h1], by simp [← h, h2]⟩

/-! ## Claim theorems -/

/-- C1: for the matched test repository with `BranchGenerateName`
`"test-branch-"` and the stub namer producing suffix `"a"`, `UpdateFromHook`
creates branch `"test-branch-a"` at the current head commit of the source
branch (`testSHA`, the head of `"master"`), rewrites the manifest at
`FilePath` on that branch from `"test:\n  image: old-image\n"` to exactly
`"test:\n  image: quay.io/testorg/repo:production\n"`, opens a pull request
with title `"Image <name> updated"`, body `"Automated Image Update"`, head
`"test-branch-a"` and base equal to the source branch, and returns no
error. -/
theorem claim_C1 :
    (updateFromHook (stubNamer "a") testConfigs testHook
      (initialState "master")).2 = none ∧
    (initialState "master").getBranchHead testGitHubRepo "master" =
      .ok testSHA ∧
    (updateFromHook (stubNamer "a") testConfigs testHook
      (initialState "master")).1.createdBranches =
      [(testGitHubRepo, "test-branch-a", testSHA)] ∧
    (updateFromHook (stubNamer "a") testConfigs testHook
      (initialState "master")).1.updatedFiles =
      [((testGitHubRepo, testFilePath, "test-branch-a"), wantContent)] ∧
    (updateFromHook (stubNamer "a") testConfigs testHook
      (initialState "master")).1.pullRequests =
      [(testGitHubRepo,
        { title := "Image " ++ testRepository.name ++ " updated"
          body := "Automated Image Update"
          head := "test-branch-a"
          base := testRepository.sourceBranch })] :=
  ⟨rfl, rfl, rfl, rfl, rfl⟩

/-- C2: for every target document, every event (with first updated tag `t`)
and every update key, the value the patcher writes is exactly
`ImageReference ++ ":" ++ t` — only the first updated tag is used — and a
successful patch changes exactly one line of the document: the addressed
scalar leaf's line, whose indent-and-key lead is kept, while every other
line (comments, ordering, indentation, unrelated content) is byte-for-byte
unchanged.  `updateRepo` invokes the patcher precisely as
`patchDoc content r.updateKey (newImageValue ev)`. -/
theorem claim_C2 (doc key : String) (ev : PushEvent) (t : String)
    (ts : List String) (out : String)
    (htags : ev.updatedTags = t :: ts)
    (hp : patchDoc doc key (newImageValue ev) = some out) :
    newImageValue ev = ev.imageReference ++ ":" ++ t ∧
    ∃ l1 d k old l2,
      splitLines doc.data = l1 ++ (keyPre d k ++ old) :: l2 ∧
      out.data = joinLines (l1 ++ (keyPre d k ++ (newImageValue ev).data) :: l2) := by
  constructor
  · simp [newImageValue, firstTag, htags]
  · unfold patchDoc at hp
    cases hpl : patchLines (splitLines doc.data) (splitOnChar '.' key.data) 0
        (newImageValue ev).data with
    | none => rw [hpl] at hp; simp at hp
    | some ls =>
      rw [hpl] at hp
      simp only [Option.map_some', Option.some.injEq] at hp
      obtain ⟨l1, d, k, old, l2, h1, h2⟩ := patchLines_frame _ _ _ _ _ hpl
      exact ⟨l1, d, k, old, l2, h1, by rw [← hp, ← h2]⟩

/-- C2 witness: the known-repo scenario's document — the patched output
rewrites only the `image:` leaf line with the value
`"quay.io/testorg/repo" ++ ":" ++ "production"`. -/
theorem claim_C2_witness :
    newImageValue testHook = "quay.io/testorg/repo" ++ ":" ++ "production" ∧
    ∃ l1 d k old l2,
      splitLines ("test:\n  image: old-image\n").data =
        l1 ++ (keyPre d k ++ old) :: l2 ∧
      wantContent.data =
        joinLines (l1 ++ (keyPre d k ++ (newImageValue testHook).data) :: l2) :=
  claim_C2 "test:\n  image: old-image\n" "test.image" testHook "production"
    [] wantContent rfl rfl

/-- C3: for every push event that matches no configured repository name,
`UpdateFromHook` returns no error and leaves the gateway state completely
unchanged: no branch created, no file updated, no pull request opened. -/
theorem claim_C3 (namer : String → String) (cfg : RepoConfiguration)
    (ev : PushEvent) (s : GatewayState)
    (h : ∀ r ∈ cfg.repositories, r.name ≠ ev.repositoryName) :
    updateFromHook namer cfg ev s = (s, none) := by
  have hm : matchAll cfg ev = [] := by
    simp only [matchAll, List.filter_eq_nil_iff]
    intro r hr
    simpa using h r hr
  rw [updateFromHook, hm]
  rfl

/-- C3 witness: the unknown-repository event of
`TestUpdaterWithUnknownRepo` is a successful no-op. -/
theorem claim_C3_witness :
    updateFromHook (stubNamer "a") testConfigs
      { testHook with repositoryName := "unknown/repo" }
      (initialState "master") = (initialState "master", none) :=
  claim_C3 _ _ _ _ (by decide)

/-- C4: when the single matched repository has an empty
`BranchGenerateName` (direct-commit mode), `UpdateFromHook` never creates a
branch or a pull request, and on success it has written exactly the patched
file directly onto the source branch; conversely, when `BranchGenerateName`
is non-empty (and the freshly generated name differs from the source
branch), a successful `UpdateFromHook` has created the generated branch at
the source head, written the patched file on that branch, and opened a pull
request for it. -/
theorem claim_C4 (namer : String → String) (cfg : RepoConfiguration)
    (ev : PushEvent) (r : Repository) (s : GatewayState)
    (hm : matchAll cfg ev = [r]) :
    (r.branchGenerateName = "" →
      (updateFromHook namer cfg ev s).1.createdBranches = s.createdBranches ∧
      (updateFromHook namer cfg ev s).1.pullRequests = s.pullRequests ∧
      ((updateFromHook namer cfg ev s).2 = none →
        ∃ content newContent,
          s.getFile r.sourceRepo r.filePath (branchOf r) = .ok content ∧
          patchDoc content r.updateKey (newImageValue ev) = some newContent ∧
          (updateFromHook namer cfg ev s).1.updatedFiles =
            s.updatedFiles ++
              [((r.sourceRepo, r.filePath, branchOf r), newContent)])) ∧
    (r.branchGenerateName ≠ "" → namer r.branchGenerateName ≠ branchOf r →
      (updateFromHook namer cfg ev s).2 = none →
      ∃ sha content newContent,
        s.getBranchHead r.sourceRepo (branchOf r) = .ok sha ∧
        patchDoc content r.updateKey (newImageValue ev) = some newContent ∧
        (updateFromHook namer cfg ev s).1.createdBranches =
          s.createdBranches ++
            [(r.sourceRepo, namer r.branchGenerateName, sha)] ∧
        (updateFromHook namer cfg ev s).1.updatedFiles =
          s.updatedFiles ++
            [((r.sourceRepo, r.filePath, namer r.branchGenerateName),
              newContent)] ∧
        (updateFromHook namer cfg ev s).1.pullRequests =
          s.pullRequests ++
            [(r.sourceRepo,
              { title := "Image " ++ r.name ++ " updated"
                body := "Automated Image Update"
                head := namer r.branchGenerateName
                base := branchOf r })]) := by
  rw [updateFromHook_single namer cfg ev s r hm]
  constructor
  · intro hbgn
    cases hgf : s.getFile r.sourceRepo r.filePath (branchOf r) with
    | error e => simp [updateRepo, hgf]
    | ok content =>
      cases hp : patchDoc content r.updateKey (newImageValue ev) with
      | none => simp [updateRepo, hgf, hp]
      | some newContent =>
        cases huf : s.updateFileErr with
        | some e =>
          simp [updateRepo, hgf, hp, hbgn, GatewayState.updateFile, huf]
        | none =>
          refine ⟨?_, ?_, fun _ => ⟨content, newContent, rfl, hp, ?_⟩⟩ <;>
            simp [updateRepo, hgf, hp, hbgn, GatewayState.updateFile, huf]
  · intro hbgn hfresh hok
    cases hgf : s.getFile r.sourceRepo r.filePath (branchOf r) with
    | error e => simp [updateRepo, hgf] at hok
    | ok content =>
      cases hp : patchDoc content r.updateKey (newImageValue ev) with
      | none => simp [updateRepo, hgf, hp] at hok
      | some newContent =>
        cases hbh : s.getBranchHead r.sourceRepo (branchOf r) with
        | error e => simp [updateRepo, hgf, hp, hbgn, hbh] at hok
        | ok sha =>
          cases hcb : s.createBranchErr with
          | some e =>
            simp [updateRepo, hgf, hp, hbgn, hbh,
              GatewayState.createBranch, hcb] at hok
          | none =>
            cases huf : s.updateFileErr with
            | some e =>
              simp [updateRepo, hgf, hp, hbgn, hbh,
                GatewayState.createBranch, hcb,
                GatewayState.updateFile, huf] at hok
            | none =>
              cases hpr : s.createPullRequestErr with
              | some e =>
                simp [updateRepo, hgf, hp, hbgn, hbh,
                  GatewayState.createBranch, hcb,
                  GatewayState.updateFile, huf, hfresh,
                  GatewayState.createPullRequest, hpr] at hok
              | none =>
                refine ⟨sha, content, newContent, rfl, hp, ?_, ?_, ?_⟩ <;>
                  simp [updateRepo, hgf, hp, hbgn, hbh,
                    GatewayState.createBranch, hcb,
                    GatewayState.updateFile, huf, hfresh,
                    GatewayState.createPullRequest, hpr]

/-- C4 witness: in the `TestUpdaterWithNoNameGenerator` scenario no branch
is created, and in the `TestUpdaterWithKnownRepo` scenario the successful
run opened the pull request for the generated branch. -/
theorem claim_C4_witness :
    ((updateFromHook (stubNamer "a") directConfigs testHook
        (initialState "production")).1.createdBranches =
      (initialState "production").createdBranches ∧
     (updateFromHook (stubNamer "a") directConfigs testHook
        (initialState "production")).1.pullRequests =
      (initialState "production").pullRequests) ∧
    (updateFromHook (stubNamer "a") testConfigs testHook
        (initialState "master")).1.pullRequests =
      (initialState "master").pullRequests ++
        [(testRepository.sourceRepo,
          { title := "Image " ++ testRepository.name ++ " updated"
            body := "Automated Image Update"
            head := stubNamer "a" testRepository.branchGenerateName
            base := branchOf testRepository })] := by
  constructor
  · have h := (claim_C4 (stubNamer "a") directConfigs testHook
      directRepository (initialState "production") rfl).1 rfl
    exact ⟨h.1, h.2.1⟩
  · obtain ⟨sha, content, newContent, h1, h2, h3, h4, h5⟩ :=
      (claim_C4 (stubNamer "a") testConfigs testHook testRepository
        (initialState "master") rfl).2 (by decide) (by decide) rfl
    exact h5

/-- C5: whenever the gateway's `GetFile` fails with error `e`,
`UpdateFromHook` returns exactly `e` — the same error value, unwrapped — and
performs no side effect at all: the gateway state is returned unchanged, so
no branch is created, no file is written and no pull request is opened. -/
theorem claim_C5 (namer : String → String) (cfg : RepoConfiguration)
    (ev : PushEvent) (r : Repository) (rs : List Repository)
    (s : GatewayState) (e : String)
    (hm : matchAll cfg ev = r :: rs) (he : s.getFileErr = some e) :
    updateFromHook namer cfg ev s = (s, some e) := by
  have hg : s.getFile r.sourceRepo r.filePath (branchOf r) = .error e := by
    simp only [GatewayState.getFile, he]
  exact updateFromHook_head_fails namer cfg ev s s r rs e hm
    (by rw [updateRepo, hg])

/-- C5 witness: the `TestUpdaterWithMissingFile` scenario — the injected
`"missing file"` error comes back verbatim and the state is untouched. -/
theorem claim_C5_witness :
    updateFromHook (stubNamer "a") testConfigs testHook
      { initialState "master" with getFileErr := some "missing file" } =
    ({ initialState "master" with getFileErr := some "missing file" },
     some "missing file") :=
  claim_C5 _ _ _ testRepository [] _ "missing file" rfl rfl

/-- C6: when the gateway's `CreateBranch` fails with cause `c` for a target
in branch-generation mode (after the file was fetched, the patch computed and
the branch head read), `UpdateFromHook` returns an error whose message is
exactly `"failed to create branch: " ++ c`, and the gateway state is returned
unchanged: no file update is made afterwards and no pull request is
created. -/
theorem claim_C6 (namer : String → String) (cfg : RepoConfiguration)
    (ev : PushEvent) (r : Repository) (rs : List Repository)
    (s : GatewayState) (content newContent sha c : String)
    (hm : matchAll cfg ev = r :: rs)
    (hbgn : r.branchGenerateName ≠ "")
    (hgf : s.getFile r.sourceRepo r.filePath (branchOf r) = .ok content)
    (hp : patchDoc content r.updateKey (newImageValue ev) = some newContent)
    (hbh : s.getBranchHead r.sourceRepo (branchOf r) = .ok sha)
    (hcb : s.createBranchErr = some c) :
    updateFromHook namer cfg ev s =
      (s, some ("failed to create branch: " ++ c)) := by
  have hu : updateRepo namer ev r s =
      (s, some ("failed to create branch: " ++ c)) := by
    simp only [updateRepo, hgf, hp, if_neg hbgn, hbh,
      GatewayState.createBranch, hcb]
  exact updateFromHook_head_fails namer cfg ev s s r rs _ hm hu

/-- C6 witness: the `TestUpdaterWithBranchCreationFailure` scenario — the
injected `"can't create branch"` cause comes back wrapped and the state is
untouched. -/
theorem claim_C6_witness :
    updateFromHook (stubNamer "a") testConfigs testHook
      { initialState "master" with createBranchErr := some "can't create branch" } =
    ({ initialState "master" with createBranchErr := some "can't create branch" },
     some ("failed to create branch: " ++ "can't create branch")) :=
  claim_C6 _ _ _ testRepository [] _ "test:\n  image: old-image\n"
    wantContent testSHA "can't create branch" rfl (by decide) rfl rfl rfl rfl

/-- C7: when the gateway's `UpdateFile` fails with cause `c` after a
successful branch creation, `UpdateFromHook` returns an error whose message
is exactly `"failed to update file: " ++ c`; the final state differs from the
initial one only by the created branch — which exists at the source branch's
head commit `sha` — so the file is unmodified on it and no pull request is
created. -/
theorem claim_C7 (namer : String → String) (cfg : RepoConfiguration)
    (ev : PushEvent) (r : Repository) (rs : List Repository)
    (s : GatewayState) (content newContent sha c : String)
    (hm : matchAll cfg ev = r :: rs)
    (hbgn : r.branchGenerateName ≠ "")
    (hgf : s.getFile r.sourceRepo r.filePath (branchOf r) = .ok content)
    (hp : patchDoc content r.updateKey (newImageValue ev) = some newContent)
    (hbh : s.getBranchHead r.sourceRepo (branchOf r) = .ok sha)
    (hcb : s.createBranchErr = none)
    (huf : s.updateFileErr = some c) :
    updateFromHook namer cfg ev s =
      ({ s with createdBranches :=
           s.createdBranches ++ [(r.sourceRepo, namer r.branchGenerateName, sha)] },
       some ("failed to update file: " ++ c)) := by
  have hu : updateRepo namer ev r s =
      ({ s with createdBranches :=
           s.createdBranches ++ [(r.sourceRepo, namer r.branchGenerateName, sha)] },
       some ("failed to update file: " ++ c)) := by
    simp only [updateRepo, hgf, hp, if_neg hbgn, hbh,
      GatewayState.createBranch, hcb, GatewayState.updateFile, huf]
  exact updateFromHook_head_fails namer cfg ev s _ r rs _ hm hu

/-- C7 witness: the `TestUpdaterWithUpdateFileFailure` scenario — the
injected `"can't update file"` cause comes back wrapped, the branch
`"test-branch-a"` exists at `testSHA`, and nothing else changed. -/
theorem claim_C7_witness :
    updateFromHook (stubNamer "a") testConfigs testHook
      { initialState "master" with updateFileErr := some "can't update file" } =
    ({ initialState "master" with
         updateFileErr := some "can't update file"
         createdBranches := [(testGitHubRepo, "test-branch-a", testSHA)] },
     some ("failed to update file: " ++ "can't update file")) :=
  claim_C7 _ _ _ testRepository [] _ "test:\n  image: old-image\n"
    wantContent testSHA "can't update file" rfl (by decide) rfl rfl rfl rfl rfl

/-- C8: when the gateway's `CreatePullRequest` fails with cause `c` after a
successful branch creation and file update, `UpdateFromHook` returns an error
whose message is exactly `"failed to create a pull request: " ++ c`; the
created branch and the completed file update remain in place — the final
state adds exactly those two records and nothing else — and no pull request
exists (the pull-request list is unchanged). -/
theorem claim_C8 (namer : String → String) (cfg : RepoConfiguration)
    (ev : PushEvent) (r : Repository) (rs : List Repository)
    (s : GatewayState) (content newContent sha c : String)
    (hm : matchAll cfg ev = r :: rs)
    (hbgn : r.branchGenerateName ≠ "")
    (hfresh : namer r.branchGenerateName ≠ branchOf r)
    (hgf : s.getFile r.sourceRepo r.filePath (branchOf r) = .ok content)
    (hp : patchDoc content r.updateKey (newImageValue ev) = some newContent)
    (hbh : s.getBranchHead r.sourceRepo (branchOf r) = .ok sha)
    (hcb : s.createBranchErr = none)
    (huf : s.updateFileErr = none)
    (hpr : s.createPullRequestErr = some c) :
    updateFromHook namer cfg ev s =
      ({ s with
           createdBranches :=
             s.createdBranches ++ [(r.sourceRepo, namer r.branchGenerateName, sha)]
           updatedFiles :=
             s.updatedFiles ++
               [((r.sourceRepo, r.filePath, namer r.branchGenerateName), newContent)] },
       some ("failed to create a pull request: " ++ c)) := by
  have hu : updateRepo namer ev r s =
      ({ s with
           createdBranches :=
             s.createdBranches ++ [(r.sourceRepo, namer r.branchGenerateName, sha)]
           updatedFiles :=
             s.updatedFiles ++
               [((r.sourceRepo, r.filePath, namer r.branchGenerateName), newContent)] },
       some ("failed to create a pull request: " ++ c)) := by
    simp only [updateRepo, hgf, hp, if_neg hbgn, hbh,
      GatewayState.createBranch, hcb, GatewayState.updateFile, huf,
      if_neg hfresh, GatewayState.createPullRequest, hpr]
  exact updateFromHook_head_fails namer cfg ev s _ r rs _ hm hu

/-- C8 witness: the `TestUpdaterWithCreatePullRequestFailure` scenario — the
injected `"can't create pull-request"` cause comes back wrapped while the
branch and the completed file update remain and no pull request exists. -/
theorem claim_C8_witness :
    updateFromHook (stubNamer "a") testConfigs testHook
      { initialState "master" with
          createPullRequestErr := some "can't create pull-request" } =
    ({ initialState "master" with
         createPullRequestErr := some "can't create pull-request"
         createdBranches := [(testGitHubRepo, "test-branch-a", testSHA)]
         updatedFiles :=
           [((testGitHubRepo, testFilePath, "test-branch-a"), wantContent)] },
     some ("failed to create a pull request: " ++ "can't create pull-request")) :=
  claim_C8 _ _ _ testRepository [] _ "test:\n  image: old-image\n"
    wantContent testSHA "can't create pull-request" rfl (by decide) (by decide)
    rfl rfl rfl rfl rfl rfl

/-- C9: with `SourceBranch = "staging"` configured, every gateway operation
uses `"staging"` in place of `"master"`: `GetFile` reads the manifest from
`"staging"`, `GetBranchHead` reads the head of `"staging"` (the prepared
state holds them only under `"staging"`), the generated branch is created at
that head commit, the file is rewritten on the generated branch, the pull
request's base is `"staging"`, and no error is returned. -/
theorem claim_C9 :
    (updateFromHook (stubNamer "a") stagingConfigs testHook
      (initialState "staging")).2 = none ∧
    (initialState "staging").getFile testGitHubRepo testFilePath "staging" =
      .ok "test:\n  image: old-image\n" ∧
    (initialState "staging").getBranchHead testGitHubRepo "staging" =
      .ok testSHA ∧
    (updateFromHook (stubNamer "a") stagingConfigs testHook
      (initialState "staging")).1.createdBranches =
      [(testGitHubRepo, "test-branch-a", testSHA)] ∧
    (updateFromHook (stubNamer "a") stagingConfigs testHook
      (initialState "staging")).1.updatedFiles =
      [((testGitHubRepo, testFilePath, "test-branch-a"), wantContent)] ∧
    (updateFromHook (stubNamer "a") stagingConfigs testHook
      (initialState "staging")).1.pullRequests =
      [(testGitHubRepo,
        { title := "Image " ++ testQuayRepo ++ " updated"
          body := "Automated Image Update"
          head := "test-branch-a"
          base := "staging" })] :=
  ⟨rfl, rfl, rfl, rfl, rfl, rfl⟩

/-- C10: the parser selection of `pkg/cmd/http.go` maps `"quay"` to the quay
parser and `"docker"` to the docker parser, returns the error
`"unknown parser: <name>"` for every other name, and the parser name
defaults to `"quay"` when not set. -/
theorem claim_C10 :
    parserFor "quay" = .ok .quayParse ∧
    parserFor "docker" = .ok .dockerParse ∧
    effectiveParserName none = "quay" ∧
    ∀ name : String, name ≠ "quay" → name ≠ "docker" →
      parserFor name = .error ("unknown parser: " ++ name) :=
  ⟨rfl, rfl, rfl, fun _ h1 h2 => by simp [parserFor, h1, h2]⟩

/-- C10 witness: an unrecognized parser name yields the unknown-parser
error. -/
theorem claim_C10_witness :
    parserFor "bogus" = .error ("unknown parser: " ++ "bogus") :=
  claim_C10.2.2.2 "bogus" (by decide) (by decide)

end ImageHooks

